import Mathlib

/-!
Shallow embedding of the RemoteWebViewServer frame pipeline:
the per-device broadcaster (src/broadcaster.ts) and the device-session
registry (ensureDeviceAsync / flushPending / screencast handler /
fallback capture / cleanupIdleAsync).

JS numbers that the code keeps as 32-bit values are modelled as Nat with
explicit % 2 ^ 32 where the code truncates; timers are modelled as
Option Nat fields holding the armed delay; the event-driven concurrency
is modelled by explicit environment parameters (frames arriving at each
suspension point).
-/

namespace RWVS

/-- Opaque transport packet (built by the external protocol encoder). -/
abbrev Packet := Nat

/-- Encoded frame bytes (base64 payloads, raster buffers). -/
abbrev Bytes := List Nat

/-- OutFrame from broadcaster.ts: a frameId plus its packet sequence. -/
structure OutFrame where
  frameId : Nat
  packets : List Packet
deriving Repr, DecidableEq

instance : Inhabited OutFrame := ⟨⟨0, []⟩⟩

-- Constants from src/broadcaster.ts (lines 11-14).
def MIN_FRAME_GAP_MS : Nat := 100
def DRAIN_POLL_MS : Nat := 5
def DRAIN_MAX_MS : Nat := 2000
def BACKPRESSURE_LOW : Nat := 16 * 1024

/-- The per-packet send loop inside `_drainAsync` (broadcaster.ts lines
102-122).  `q` is the device queue as the loop runs; `arr` gives, for each
packet-boundary check, the OutFrames that arrived during the preceding
suspension ( `await Promise.resolve()` between packets).  Before sending
each packet the code checks the queue: if it is non-empty the current
frame is abandoned.  Returns (packets sent, queue afterwards, aborted). -/
def packetLoop : List Packet → List OutFrame → List (List OutFrame) →
    List Packet × List OutFrame × Bool
  | [], q, _ => ([], q, false)
  | p :: ps, q, arr =>
    let q1 := q ++ arr.headD []
    if q1.length > 0 then ([], q1, true)
    else
      let r := packetLoop ps q1 arr.tail
      (p :: r.1, r.2.1, r.2.2)

/-- Stale-frame dropping at the top of each drain cycle (broadcaster.ts
lines 93-97): if more than one OutFrame is queued, keep only the last
(newest) one. -/
def pruneStale (q : List OutFrame) : List OutFrame :=
  if q.length > 1 then [q.getLast!] else q

/-- Environment of one drain cycle: OutFrames arriving at each packet
boundary, and OutFrames arriving while pacing between frames. -/
structure CycleEnv where
  pktArr : List (List OutFrame)
  paceArr : List OutFrame

/-- One iteration of the `while (st.queue.length)` loop of `_drainAsync`
(broadcaster.ts lines 91-139): prune stale frames, shift the head, send
its packets (aborting if a newer frame arrives), and pace when the frame
completed without abort (arrivals during pacing join the queue).
`clientCount` models `peers.size` (held constant over the cycle); with no
clients the queue is cleared and nothing is sent (line 89).
Returns (packets sent, queue afterwards, aborted). -/
def drainStep (clientCount : Nat) (q : List OutFrame) (env : CycleEnv) :
    List Packet × List OutFrame × Bool :=
  if clientCount = 0 then ([], [], false)
  else
    match pruneStale q with
    | [] => ([], [], false)
    | f :: rest =>
      let r := packetLoop f.packets rest env.pktArr
      if r.2.2 then r
      else (r.1, r.2.1 ++ env.paceArr, false)

/-- The whole drain task as repeated cycles, fuelled (the real loop runs
until the queue empties; fuel bounds the cycles we observe). -/
def drainLoop (clientCount : Nat) :
    Nat → List OutFrame → List CycleEnv → List Packet
  | 0, _, _ => []
  | _ + 1, [], _ => []
  | fuel + 1, q, envs =>
    let r := drainStep clientCount q (envs.headD ⟨[], []⟩)
    r.1 ++ drainLoop clientCount fuel r.2.1 envs.tail

/-- Observation of one client during pacing: `readyState === OPEN` and
`bufferedAmount`. -/
structure ClientObs where
  isOpen : Bool
  bufferedAmount : Nat

/-- `maxBuf` computation of `_paceBeforeNextFrame` (broadcaster.ts lines
156-160): max bufferedAmount over clients whose readyState is OPEN. -/
def maxBufferedAmount (cs : List ClientObs) : Nat :=
  cs.foldl (fun m c => if c.isOpen then max m c.bufferedAmount else m) 0

/-- How the pacing poll loop exits. -/
inductive PaceExit
  | newerFrame
  | drained
  | deadline
deriving Repr, DecidableEq

/-- The poll loop of `_paceBeforeNextFrame` (broadcaster.ts lines
153-163), entered after the unconditional MIN_FRAME_GAP_MS sleep.
`obs n` gives (queue length, client observations) at the n-th poll; time
advances DRAIN_POLL_MS per poll, so the `Date.now() < deadline` guard is
`DRAIN_POLL_MS * n < DRAIN_MAX_MS`.  Returns the exit reason and the
number of polls taken. -/
def paceLoop (obs : Nat → Nat × List ClientObs) (n : Nat) :
    PaceExit × Nat :=
  if h : DRAIN_POLL_MS * n < DRAIN_MAX_MS then
    let o := obs n
    if 0 < o.1 then (PaceExit.newerFrame, n)
    else if maxBufferedAmount o.2 ≤ BACKPRESSURE_LOW then (PaceExit.drained, n)
    else paceLoop obs (n + 1)
  else (PaceExit.deadline, n)
termination_by 400 - n
decreasing_by
  simp only [DRAIN_POLL_MS, DRAIN_MAX_MS] at h
  omega

/-- `_paceBeforeNextFrame`: sleep MIN_FRAME_GAP_MS, then run the poll
loop from n = 0. -/
def paceBeforeNextFrame (obs : Nat → Nat × List ClientObs) :
    PaceExit × Nat :=
  paceLoop obs 0

/-- Modelled from the spec: `hash32` lives in util.ts, which is not among
the sources; spec section 4.1 specifies FNV-1a over the raw bytes, 32-bit. -/
def hash32 (b : Bytes) : Nat :=
  b.foldl (fun h x => ((h ^^^ (x % 256)) * 16777619) % 2 ^ 32) 2166136261

/-- One output rectangle of the FrameProcessor. -/
structure Rect where
  x : Nat
  y : Nat
  w : Nat
  h : Nat
  payload : Bytes
deriving DecidableEq

/-- FrameOut from frameProcessor.ts as used by flushPending and the
broadcaster: rectangle list, codec tag (opaque) and full-frame flag. -/
structure FrameOut where
  rects : List Rect
  encoding : Nat
  isFullFrame : Bool
deriving DecidableEq

/-- DeviceConfig.  Modelled from the spec: config.ts is not among the
sources; spec section 3 lists the recognized fields.  The 0-1 area
fraction is a rational. -/
structure DeviceConfig where
  width : Nat
  height : Nat
  tileSize : Nat
  rotation : Nat
  jpegQuality : Nat
  fullFrameTileCount : Nat
  fullFrameAreaThreshold : ℚ
  fullFrameEvery : Nat
  everyNthFrame : Nat
  minFrameInterval : Nat
  maxBytesPerMessage : Nat
deriving DecidableEq

/-- Modelled from the spec: `deviceConfigsEqual` lives in config.ts,
which is not among the sources; spec section 3 says two configs are
considered equal iff every recognized field is equal. -/
def deviceConfigsEqual (a b : DeviceConfig) : Bool :=
  a.width == b.width && a.height == b.height && a.tileSize == b.tileSize
    && a.rotation == b.rotation && a.jpegQuality == b.jpegQuality
    && a.fullFrameTileCount == b.fullFrameTileCount
    && a.fullFrameAreaThreshold == b.fullFrameAreaThreshold
    && a.fullFrameEvery == b.fullFrameEvery
    && a.everyNthFrame == b.everyNthFrame
    && a.minFrameInterval == b.minFrameInterval
    && a.maxBytesPerMessage == b.maxBytesPerMessage

/-- The DeviceSession record (part_000 lines 10-28).  `id` holds the
browser targetId, `deviceId` the client-chosen key.  Timer handles are
modelled as the armed delay (none = not armed); the FrameProcessor is
abstracted to its one observable latch (`requestFullFrame`), its frame
transformation being passed as a function parameter where needed. -/
structure DeviceSession where
  id : Nat
  deviceId : Nat
  cfg : DeviceConfig
  url : String
  lastActive : Nat
  frameId : Nat
  prevFrameHash : Nat
  pendingB64 : Option Bytes
  throttleTimer : Option Nat
  fallbackTimer : Option Nat
  lastProcessedMs : Option Nat
  processing : Bool
  fullFrameLatched : Bool
deriving DecidableEq

-- Constants from part_000 lines 180-181 and the no-client recheck
-- delay in fallbackCapture (line 193).
def FALLBACK_DELAY_MS : Nat := 800
def FALLBACK_REPEAT_MS : Nat := 2000
def FALLBACK_NO_CLIENT_RECHECK_MS : Nat := 5000

/-- Result of one `flushPending` run: the updated session, the frame
handed to `broadcaster.sendFrameChunked` (if any), and whether the
decode / processFrame stage was reached at all. -/
structure FlushOut where
  dev : DeviceSession
  broadcastFrame : Option (Nat × FrameOut)
  decoded : Bool
deriving DecidableEq

/-- The throttle-timer callback `flushPending` (part_000 lines 117-174).
`process` abstracts the decode + rotate + ensureAlpha +
`processor.processFrameAsync` stage (none models a thrown error, caught
at line 163); `arrivedDuring` is a frame stored into the pending slot
during that awaited stage.  Mirrors the source control flow: clear the
timer handle; if busy re-arm (at minFrameInterval) when a frame is
pending and return; take the pending slot, return if empty; hash and
drop the frame before decoding when the hash equals prevFrameHash
(still stamping lastProcessedMs in the finally block); otherwise record
the new hash, run the processing stage, advance frameId (mod 2 ^ 32)
and broadcast only when the rectangle list is non-empty; the finally
block clears `processing`, stamps lastProcessedMs and arms a 0-delay
timer when a new frame is pending and no timer is armed. -/
def flushPending (now : Nat) (process : Bytes → Option FrameOut)
    (arrivedDuring : Option Bytes) (d : DeviceSession) : FlushOut :=
  let d0 := { d with throttleTimer := none }
  if d0.processing then
    { dev :=
        if d0.pendingB64.isSome then
          { d0 with throttleTimer := some d0.cfg.minFrameInterval }
        else d0,
      broadcastFrame := none, decoded := false }
  else
    match d0.pendingB64 with
    | none => { dev := d0, broadcastFrame := none, decoded := false }
    | some b =>
      let d1 := { d0 with pendingB64 := none }
      let h32 := hash32 b
      if d1.prevFrameHash = h32 then
        { dev := { d1 with lastProcessedMs := some now, processing := false },
          broadcastFrame := none, decoded := false }
      else
        let d2 := { d1 with prevFrameHash := h32, pendingB64 := arrivedDuring }
        let finTail := fun (dv : DeviceSession) (bf : Option (Nat × FrameOut)) =>
          let dv1 := { dv with processing := false, lastProcessedMs := some now }
          { dev :=
              if dv1.pendingB64.isSome ∧ dv1.throttleTimer = none then
                { dv1 with throttleTimer := some 0 }
              else dv1,
            broadcastFrame := bf, decoded := true : FlushOut }
        match process b with
        | none => finTail d2 none
        | some out =>
          if 0 < out.rects.length then
            let fid := (d2.frameId + 1) % 2 ^ 32
            finTail { d2 with frameId := fid } (some (fid, out))
          else
            finTail d2 none

/-- Result of the screencast-frame handler: updated session and whether
the frame was acknowledged to the browser. -/
structure ScreencastOut where
  dev : DeviceSession
  acked : Bool
deriving DecidableEq

/-- The `Page.screencastFrame` handler (part_000 lines 216-241): ACK
immediately (failures ignored); reset the fallback timer to
FALLBACK_DELAY_MS (scheduleFallback); if the client count is zero
return; otherwise refresh lastActive, overwrite the pending slot with
the frame bytes, and, when no throttle timer is armed, arm one with
delay max(0, minFrameInterval - since) where since is now -
lastProcessedMs when that stamp exists and is treated as 0 by the
`Number.isFinite` guard otherwise. -/
def onScreencastFrame (clientCount : Nat) (now : Nat) (data : Bytes)
    (d : DeviceSession) : ScreencastOut :=
  let d0 := { d with fallbackTimer := some FALLBACK_DELAY_MS }
  if clientCount = 0 then
    { dev := d0, acked := true }
  else
    let d1 := { d0 with lastActive := now, pendingB64 := some data }
    if d1.throttleTimer = none then
      let sinceFin : Int :=
        match d1.lastProcessedMs with
        | some t => (now : Int) - (t : Int)
        | none => 0
      let delay : Int := max 0 ((d1.cfg.minFrameInterval : Int) - sinceFin)
      { dev := { d1 with throttleTimer := some delay.toNat }, acked := true }
    else
      { dev := d1, acked := true }

/-- Outcome of the awaited `Page.captureScreenshot` request. -/
inductive ShotResult
  | ok (data : Bytes)
  | noData
  | err
deriving DecidableEq

/-- The fallback-timer callback `fallbackCapture` (part_000 lines
188-214).  Returns the updated session and whether a screenshot request
was issued.  Mirrors the source: clear the handle; with no clients
re-arm at 5000 ms and return without a screenshot; otherwise request the
screenshot — on success latch a full frame, store the bytes in the
pending slot and arm a 0-delay throttle timer when none is armed; an
error is caught and ignored; finally re-arm the fallback at
FALLBACK_REPEAT_MS when no fallback timer is set and clients remain. -/
def fallbackCapture (clientCount : Nat) (shot : ShotResult)
    (d : DeviceSession) : DeviceSession × Bool :=
  let d0 := { d with fallbackTimer := none }
  if clientCount = 0 then
    ({ d0 with fallbackTimer := some FALLBACK_NO_CLIENT_RECHECK_MS }, false)
  else
    let d1 : DeviceSession :=
      match shot with
      | ShotResult.ok data =>
        let da := { d0 with fullFrameLatched := true, pendingB64 := some data }
        if da.throttleTimer = none then { da with throttleTimer := some 0 }
        else da
      | ShotResult.noData => d0
      | ShotResult.err => d0
    if d1.fallbackTimer = none ∧ 0 < clientCount then
      ({ d1 with fallbackTimer := some FALLBACK_REPEAT_MS }, true)
    else (d1, true)

/-- The process-wide `devices` map, as an association list keyed by the
client-chosen deviceId. -/
abbrev Registry := List (Nat × DeviceSession)

/-- `devices.get(id)`. -/
def lookupDev (reg : Registry) (id : Nat) : Option DeviceSession :=
  (List.find? (fun p => p.1 == id) reg).map (fun p => p.2)

/-- `devices.set(id, s)`: replace an existing binding or append a new
one. -/
def setDev (reg : Registry) (id : Nat) (s : DeviceSession) : Registry :=
  if (List.find? (fun p => p.1 == id) reg).isSome then
    reg.map (fun p => if p.1 == id then (id, s) else p)
  else reg ++ [(id, s)]

/-- `devices.delete(id)` as performed by `deleteDeviceAsync` (which also
cancels both timers and closes the browser target). -/
def eraseDev (reg : Registry) (id : Nat) : Registry :=
  reg.filter (fun p => !(p.1 == id))

/-- The fresh DeviceSession built by `ensureDeviceAsync` (part_000
lines 94-112, 243-244): new browser target, config snapshot, zero
frameId and prevFrameHash, empty pending slot, full-frame latched
(line 112), and the initial fallback timer armed by the trailing
`scheduleFallback()` call. -/
def mkSession (targetId deviceId : Nat) (cfg : DeviceConfig) (now : Nat) :
    DeviceSession :=
  { id := targetId, deviceId := deviceId, cfg := cfg, url := "",
    lastActive := now, frameId := 0, prevFrameHash := 0,
    pendingB64 := none, throttleTimer := none,
    fallbackTimer := some FALLBACK_DELAY_MS, lastProcessedMs := none,
    processing := false, fullFrameLatched := true }

/-- Result of `ensureDeviceAsync`: updated registry, the session
returned to the caller, and how many existing sessions were destroyed
(`deleteDeviceAsync` calls on a live session). -/
structure EnsureOut where
  reg : Registry
  session : DeviceSession
  destroys : Nat
deriving DecidableEq

/-- `ensureDeviceAsync` (part_000 lines 36-247).  If a session exists
under `id` with an equal config, refresh its lastActive, latch a full
frame on its processor and return it unchanged otherwise (no rebuild);
if the config differs, destroy the existing session first and fall
through to creation; creation builds a fresh target/session under the
given config and registers it.  `freshTargetId` stands for the targetId
the browser allocates. -/
def ensureDevice (now freshTargetId id : Nat) (cfg : DeviceConfig)
    (reg : Registry) : EnsureOut :=
  match lookupDev reg id with
  | some dev =>
    if deviceConfigsEqual dev.cfg cfg then
      let dev1 := { dev with lastActive := now, fullFrameLatched := true }
      { reg := setDev reg id dev1, session := dev1, destroys := 0 }
    else
      let s := mkSession freshTargetId id cfg now
      { reg := setDev (eraseDev reg id) id s, session := s, destroys := 1 }
  | none =>
    let s := mkSession freshTargetId id cfg now
    { reg := setDev reg id s, session := s, destroys := 0 }

/-- The staleness test of `cleanupIdleAsync` (part_000 line 256):
`now - d.lastActive > ttlMs`. -/
def isStale (now ttl : Nat) (s : DeviceSession) : Bool :=
  decide (ttl < now - s.lastActive)

/-- `cleanupIdleAsync` (part_000 lines 249-269) with the reentrance
guard abstracted away: every session whose lastActive is older than the
ttl is destroyed and removed from the registry. -/
def cleanupIdle (now ttl : Nat) (reg : Registry) : Registry :=
  reg.filter (fun p => !(isStale now ttl p.2))

/-- The broadcaster `_clients` map: deviceId to registered sockets
(sockets modelled by id). -/
abbrev BClients := List (Nat × List Nat)

/-- `this._clients.get(id)`. -/
def lookupClients (cs : BClients) (id : Nat) : Option (List Nat) :=
  (List.find? (fun p => p.1 == id) cs).map (fun p => p.2)

/-- `getClientCount` (broadcaster.ts lines 48-50). -/
def getClientCount (cs : BClients) (id : Nat) : Nat :=
  ((lookupClients cs id).getD []).length

/-- Result of `addClient`: the updated map and the sockets that were
closed by the replacement policy. -/
structure AddClientOut where
  clients : BClients
  closedSocks : List Nat
deriving DecidableEq

/-- `addClient` (broadcaster.ts lines 20-37): when a non-empty socket
set already exists for the device, close every old socket and clear the
set; then register the new socket in the (possibly fresh) set. -/
def addClient (id ws : Nat) (cs : BClients) : AddClientOut :=
  match lookupClients cs id with
  | some old =>
    { clients := cs.map (fun p => if p.1 == id then (id, [ws]) else p),
      closedSocks := if old.length > 0 then old else [] }
  | none =>
    { clients := cs ++ [(id, [ws])], closedSocks := [] }

/-- `sendFrameChunked` (broadcaster.ts lines 52-61) observed at the
queue of the device: with no registered clients or an empty rectangle
list nothing is enqueued; otherwise the packets built by the external
protocol encoder (`buildPackets`) are enqueued as one OutFrame. -/
def sendFrameChunked (clientCount : Nat) (data : FrameOut) (frameId : Nat)
    (buildPackets : FrameOut → Nat → List Packet)
    (queue : List OutFrame) : List OutFrame :=
  if clientCount = 0 ∨ data.rects.length = 0 then queue
  else queue ++ [{ frameId := frameId, packets := buildPackets data frameId }]

/-! Concrete fixtures used by witnesses and counterexamples. -/

/-- A concrete config. -/
def cfgW : DeviceConfig :=
  { width := 320, height := 240, tileSize := 32, rotation := 0,
    jpegQuality := 85, fullFrameTileCount := 4,
    fullFrameAreaThreshold := 0, fullFrameEvery := 15,
    everyNthFrame := 1, minFrameInterval := 80,
    maxBytesPerMessage := 14336 }

/-- A second concrete config, differing from cfgW in width. -/
def cfgW2 : DeviceConfig := { cfgW with width := 480 }

/-- A concrete idle session. -/
def devW : DeviceSession :=
  { id := 7, deviceId := 1, cfg := cfgW, url := "", lastActive := 1000,
    frameId := 0, prevFrameHash := 0, pendingB64 := none,
    throttleTimer := none, fallbackTimer := some FALLBACK_DELAY_MS,
    lastProcessedMs := none, processing := false, fullFrameLatched := true }

/-- Concrete fixtures for the C1 witness: a frame of three packets and
an environment where a newer frame arrives before the second packet. -/
def frameW1 : OutFrame := ⟨1, [7, 8, 9]⟩

def envW1 : CycleEnv := ⟨[[], [⟨2, [5]⟩]], []⟩

/-- A concrete poll observation function for the C3 witness: at poll 0
the queue is empty and one open client has a 1 MiB buffer; at poll 1
the buffer is drained. -/
def obsW3 : Nat → Nat × List ClientObs :=
  fun n => if n = 0 then (0, [⟨true, 1048576⟩]) else (0, [⟨true, 0⟩])

/-- Concrete pending bytes for witnesses. -/
def bytesW : Bytes := [1, 2, 3]

/-- A session whose prevFrameHash already equals the hash of the
pending bytes. -/
def devW2 : DeviceSession :=
  { devW with pendingB64 := some bytesW, prevFrameHash := hash32 bytesW }

/-- A concrete non-empty processor output for the C4 witness. -/
def outW : FrameOut := ⟨[⟨0, 0, 32, 32, [9]⟩], 0, true⟩

/-- A session at the 32-bit frameId boundary with a fresh pending
frame. -/
def devW4 : DeviceSession :=
  { devW with
      pendingB64 := some bytesW, prevFrameHash := 0,
      frameId := 4294967295 }

/-- A session last active at time 0, for the C10 witness. -/
def devW10 : DeviceSession := { devW with lastActive := 0 }

/-! Helper lemmas. -/

theorem pruneStale_of_two_le (q : List OutFrame) (h : 2 ≤ q.length) :
    pruneStale q = [q.getLast!] := by
  unfold pruneStale
  rw [if_pos (by omega)]

theorem pruneStale_singleton (f : OutFrame) : pruneStale [f] = [f] := by
  simp [pruneStale]

theorem packetLoop_cons (p : Packet) (ps : List Packet) (q : List OutFrame)
    (arr : List (List OutFrame)) :
    packetLoop (p :: ps) q arr =
      if 0 < (q ++ arr.headD []).length then ([], q ++ arr.headD [], true)
      else (p :: (packetLoop ps (q ++ arr.headD []) arr.tail).1,
        (packetLoop ps (q ++ arr.headD []) arr.tail).2.1,
        (packetLoop ps (q ++ arr.headD []) arr.tail).2.2) := rfl

theorem packetLoop_sent_take (pkts : List Packet) :
    ∀ (q : List OutFrame) (arr : List (List OutFrame)),
      ∃ j, (packetLoop pkts q arr).1 = pkts.take j := by
  induction pkts with
  | nil => exact fun q arr => ⟨0, rfl⟩
  | cons p ps ih =>
    intro q arr
    rw [packetLoop_cons]
    by_cases hq : 0 < (q ++ arr.headD []).length
    · exact ⟨0, by rw [if_pos hq]; rfl⟩
    · obtain ⟨j, hj⟩ := ih (q ++ arr.headD []) arr.tail
      exact ⟨j + 1, by rw [if_neg hq]; dsimp only; rw [hj, List.take_succ_cons]⟩

theorem drainStep_singleton_sent (c : Nat) (f : OutFrame) (env : CycleEnv) :
    ∃ j, (drainStep c [f] env).1 = f.packets.take j := by
  unfold drainStep
  by_cases hc : c = 0
  · exact ⟨0, by simp [hc]⟩
  · rw [if_neg hc, pruneStale_singleton]
    obtain ⟨j, hj⟩ := packetLoop_sent_take f.packets [] env.pktArr
    refine ⟨j, ?_⟩
    cases hab : (packetLoop f.packets [] env.pktArr).2.2 <;> simp [hab, hj]

theorem drainStep_prune (c : Nat) (q : List OutFrame) (env : CycleEnv)
    (h : 2 ≤ q.length) :
    drainStep c q env = drainStep c [q.getLast!] env := by
  unfold drainStep
  rw [pruneStale_of_two_le q h, pruneStale_singleton]

theorem packetLoop_abort (k : Nat) :
    ∀ (pkts : List Packet) (arr : List (List OutFrame)),
      k < pkts.length →
      (∀ m, m < k → arr.getD m [] = []) →
      arr.getD k [] ≠ [] →
      packetLoop pkts [] arr = (pkts.take k, arr.getD k [], true) := by
  induction k with
  | zero =>
    intro pkts arr hk hb ha
    cases pkts with
    | nil => simp at hk
    | cons p ps =>
      cases arr with
      | nil => simp [List.getD] at ha
      | cons a arr' =>
        rw [List.getD_cons_zero] at ha ⊢
        rw [packetLoop_cons, if_pos (by simpa [List.length_pos] using ha)]
        simp
  | succ k ih =>
    intro pkts arr hk hb ha
    cases pkts with
    | nil => simp at hk
    | cons p ps =>
      cases arr with
      | nil => simp [List.getD] at ha
      | cons a arr' =>
        have ha0 : a = [] := by simpa using hb 0 (Nat.succ_pos k)
        subst ha0
        rw [List.getD_cons_succ] at ha ⊢
        rw [packetLoop_cons, if_neg (by simp)]
        have hrec := ih ps arr' (by simp at hk; omega)
          (fun m hm => by simpa using hb (m + 1) (by omega)) ha
        simp [hrec]

theorem drainStep_abort (c : Nat) (f : OutFrame) (env : CycleEnv) (k : Nat)
    (hc : 0 < c) (hk : k < f.packets.length)
    (hb : ∀ m, m < k → env.pktArr.getD m [] = [])
    (ha : env.pktArr.getD k [] ≠ []) :
    drainStep c [f] env = (f.packets.take k, env.pktArr.getD k [], true) := by
  unfold drainStep
  rw [if_neg (by omega), pruneStale_singleton]
  simp only [packetLoop_abort k f.packets env.pktArr hk hb ha]
  rfl

theorem drainLoop_cons_abort (c : Nat) (f : OutFrame) (env : CycleEnv)
    (k : Nat) (hc : 0 < c) (hk : k < f.packets.length)
    (hb : ∀ m, m < k → env.pktArr.getD m [] = [])
    (ha : env.pktArr.getD k [] ≠ []) (fuel : Nat) (envs : List CycleEnv) :
    drainLoop c (fuel + 1) [f] (env :: envs)
      = f.packets.take k ++ drainLoop c fuel (env.pktArr.getD k []) envs := by
  simp [drainLoop, drainStep_abort c f env k hc hk hb ha]

/-! Claim theorems. -/

/-- Claim C1: stale-frame dropping in the broadcaster drain.  When a
drain cycle starts with two or more queued OutFrames, the cycle behaves
exactly as if only the newest were queued and every packet it sends
comes from that newest frame (all older frames are discarded before
anything is sent, so at most one of the queued frames is transmitted).
And while a frame's packet sequence is being sent, if a newer OutFrame
is enqueued before some packet, the packets from that point on are not
sent (only the first k are), the cycle aborts with the arrivals as the
new queue, and the drain loop restarts on them. -/
theorem drain_stale_drop_and_abort :
    (∀ (c : Nat) (q : List OutFrame) (env : CycleEnv), 2 ≤ q.length →
      drainStep c q env = drainStep c [q.getLast!] env
        ∧ ∃ j, (drainStep c q env).1 = q.getLast!.packets.take j)
    ∧ (∀ (c : Nat) (f : OutFrame) (env : CycleEnv) (k : Nat), 0 < c →
      k < f.packets.length →
      (∀ m, m < k → env.pktArr.getD m [] = []) →
      env.pktArr.getD k [] ≠ [] →
      drainStep c [f] env = (f.packets.take k, env.pktArr.getD k [], true)
        ∧ ∀ (fuel : Nat) (envs : List CycleEnv),
            drainLoop c (fuel + 1) [f] (env :: envs)
              = f.packets.take k
                  ++ drainLoop c fuel (env.pktArr.getD k []) envs) := by
  constructor
  · intro c q env hq
    refine ⟨drainStep_prune c q env hq, ?_⟩
    rw [drainStep_prune c q env hq]
    exact drainStep_singleton_sent c q.getLast! env
  · intro c f env k hc hk hb ha
    exact ⟨drainStep_abort c f env k hc hk hb ha,
      fun fuel envs => drainLoop_cons_abort c f env k hc hk hb ha fuel envs⟩

/-- Witness for C1: with the queue [old, frameW1] the cycle equals the
cycle on frameW1 alone, and with a newer frame arriving before packet
index 1 the cycle sends only packet 7, aborts, and leaves the arrival
queued. -/
theorem drain_stale_drop_and_abort_witness :
    drainStep 1 [⟨0, [1, 2]⟩, frameW1] envW1 = drainStep 1 [frameW1] envW1
      ∧ drainStep 1 [frameW1] envW1 = ([7], [⟨2, [5]⟩], true) := by
  constructor
  · exact (drain_stale_drop_and_abort.1 1 [⟨0, [1, 2]⟩, frameW1] envW1
      (by decide)).1
  · have h := (drain_stale_drop_and_abort.2 1 frameW1 envW1 1 (by decide)
      (by decide)
      (fun m hm => by
        have hm0 : m = 0 := by omega
        subst hm0
        rfl)
      (by decide)).1
    simpa using h

theorem paceLoop_deadline (obs : Nat → Nat × List ClientObs) (n : Nat)
    (h : DRAIN_MAX_MS ≤ DRAIN_POLL_MS * n) :
    paceLoop obs n = (PaceExit.deadline, n) := by
  rw [paceLoop, dif_neg (by omega)]

theorem paceLoop_newer (obs : Nat → Nat × List ClientObs) (n : Nat)
    (h5 : DRAIN_POLL_MS * n < DRAIN_MAX_MS) (hq : 0 < (obs n).1) :
    paceLoop obs n = (PaceExit.newerFrame, n) := by
  rw [paceLoop, dif_pos h5]
  dsimp only
  rw [if_pos hq]

theorem paceLoop_drained (obs : Nat → Nat × List ClientObs) (n : Nat)
    (h5 : DRAIN_POLL_MS * n < DRAIN_MAX_MS) (hq : (obs n).1 = 0)
    (hbuf : maxBufferedAmount (obs n).2 ≤ BACKPRESSURE_LOW) :
    paceLoop obs n = (PaceExit.drained, n) := by
  rw [paceLoop, dif_pos h5]
  dsimp only
  rw [if_neg (by omega), if_pos hbuf]

theorem paceLoop_continue (obs : Nat → Nat × List ClientObs) (n : Nat)
    (h5 : DRAIN_POLL_MS * n < DRAIN_MAX_MS) (hq : (obs n).1 = 0)
    (hbuf : BACKPRESSURE_LOW < maxBufferedAmount (obs n).2) :
    paceLoop obs n = paceLoop obs (n + 1) := by
  conv_lhs => rw [paceLoop]
  rw [dif_pos h5]
  dsimp only
  rw [if_neg (by omega), if_neg (by omega)]

theorem paceLoop_poll_bound (obs : Nat → Nat × List ClientObs) :
    ∀ (m n : Nat), 400 - n ≤ m → DRAIN_POLL_MS * n ≤ DRAIN_MAX_MS →
      DRAIN_POLL_MS * (paceLoop obs n).2 ≤ DRAIN_MAX_MS := by
  intro m
  induction m with
  | zero =>
    intro n hm hn
    rw [paceLoop_deadline obs n
      (by simp only [DRAIN_POLL_MS, DRAIN_MAX_MS]; omega)]
    exact hn
  | succ m ih =>
    intro n hm hn
    by_cases h5 : DRAIN_POLL_MS * n < DRAIN_MAX_MS
    · by_cases hq : 0 < (obs n).1
      · rw [paceLoop_newer obs n h5 hq]; dsimp only; omega
      · by_cases hbuf : maxBufferedAmount (obs n).2 ≤ BACKPRESSURE_LOW
        · rw [paceLoop_drained obs n h5 (by omega) hbuf]; dsimp only; omega
        · rw [paceLoop_continue obs n h5 (by omega) (by omega)]
          refine ih (n + 1) ?_ ?_
          · simp only [DRAIN_POLL_MS, DRAIN_MAX_MS] at h5
            omega
          · simp only [DRAIN_POLL_MS, DRAIN_MAX_MS] at h5 ⊢
            omega
    · rw [paceLoop_deadline obs n (by omega)]
      exact hn

theorem foldl_maxBuf_le (B : Nat) :
    ∀ (cs : List ClientObs) (acc : Nat),
      (cs.foldl (fun m c => if c.isOpen then max m c.bufferedAmount else m)
          acc ≤ B
        ↔ acc ≤ B ∧ ∀ c ∈ cs, c.isOpen = true → c.bufferedAmount ≤ B) := by
  intro cs
  induction cs with
  | nil => intro acc; simp
  | cons c t ih =>
    intro acc
    simp only [List.foldl_cons, ih, List.mem_cons]
    cases hc : c.isOpen
    · simp only [hc, if_false, Bool.false_eq_true]
      constructor
      · rintro ⟨h1, h2⟩
        refine ⟨h1, ?_⟩
        rintro x (rfl | hx)
        · intro hxo; simp [hc] at hxo
        · exact h2 x hx
      · rintro ⟨h1, h2⟩
        exact ⟨h1, fun x hx => h2 x (Or.inr hx)⟩
    · simp only [hc, if_true]
      constructor
      · rintro ⟨h1, h2⟩
        refine ⟨le_trans (le_max_left _ _) h1, ?_⟩
        rintro x (rfl | hx)
        · exact fun _ => le_trans (le_max_right _ _) h1
        · exact h2 x hx
      · rintro ⟨h1, h2⟩
        exact ⟨max_le h1 (h2 c (Or.inl rfl) hc),
          fun x hx => h2 x (Or.inr hx)⟩

/-- Claim C3: broadcaster pacing.  The constants are 100 ms minimum
gap, 5 ms poll, 2000 ms maximum wait and a 16 KiB low-water mark; the
poll loop (entered after the fixed MIN_FRAME_GAP_MS sleep) exits
immediately with `newerFrame` when the queue is non-empty, keeps
polling while some open client's bufferedAmount exceeds
BACKPRESSURE_LOW, exits with `drained` once every open client's buffer
is at or below the threshold, stops at the 2000 ms deadline, and the
polls it performs never span more than DRAIN_MAX_MS. -/
theorem pace_timing_and_exit :
    (MIN_FRAME_GAP_MS = 100 ∧ DRAIN_POLL_MS = 5 ∧ DRAIN_MAX_MS = 2000
      ∧ BACKPRESSURE_LOW = 16 * 1024)
    ∧ (∀ (cs : List ClientObs) (B : Nat),
        B < maxBufferedAmount cs
          ↔ ∃ c ∈ cs, c.isOpen = true ∧ B < c.bufferedAmount)
    ∧ (∀ (obs : Nat → Nat × List ClientObs) (n : Nat),
        DRAIN_POLL_MS * n < DRAIN_MAX_MS → 0 < (obs n).1 →
        paceLoop obs n = (PaceExit.newerFrame, n))
    ∧ (∀ (obs : Nat → Nat × List ClientObs) (n : Nat),
        DRAIN_POLL_MS * n < DRAIN_MAX_MS → (obs n).1 = 0 →
        BACKPRESSURE_LOW < maxBufferedAmount (obs n).2 →
        paceLoop obs n = paceLoop obs (n + 1))
    ∧ (∀ (obs : Nat → Nat × List ClientObs) (n : Nat),
        DRAIN_POLL_MS * n < DRAIN_MAX_MS → (obs n).1 = 0 →
        maxBufferedAmount (obs n).2 ≤ BACKPRESSURE_LOW →
        paceLoop obs n = (PaceExit.drained, n))
    ∧ (∀ (obs : Nat → Nat × List ClientObs) (n : Nat),
        DRAIN_MAX_MS ≤ DRAIN_POLL_MS * n →
        paceLoop obs n = (PaceExit.deadline, n))
    ∧ (∀ obs : Nat → Nat × List ClientObs,
        DRAIN_POLL_MS * (paceBeforeNextFrame obs).2 ≤ DRAIN_MAX_MS) := by
  refine ⟨⟨rfl, rfl, rfl, rfl⟩, ?_, paceLoop_newer, paceLoop_continue,
    paceLoop_drained, paceLoop_deadline, ?_⟩
  · intro cs B
    constructor
    · intro h
      by_contra hno
      push_neg at hno
      have := (foldl_maxBuf_le B cs 0).2
        ⟨Nat.zero_le B, fun c hc hco => hno c hc hco⟩
      simp only [maxBufferedAmount] at h
      omega
    · rintro ⟨c, hc, hco, hB⟩
      by_contra hno
      push_neg at hno
      have := ((foldl_maxBuf_le B cs 0).1
        (by simpa [maxBufferedAmount] using hno)).2 c hc hco
      omega
  · intro obs
    exact paceLoop_poll_bound obs 400 0 (by omega) (by omega)

/-- Witness for C3: with obsW3 the loop keeps waiting at poll 0 (buffer
over the threshold) and exits `drained` at poll 1. -/
theorem pace_timing_and_exit_witness :
    paceLoop obsW3 0 = (PaceExit.drained, 1) := by
  have h1 := pace_timing_and_exit.2.2.2.1 obsW3 0 (by decide) (by rfl)
    (by simp [obsW3, maxBufferedAmount, BACKPRESSURE_LOW])
  have h2 := pace_timing_and_exit.2.2.2.2.1 obsW3 1 (by decide) (by rfl)
    (by simp [obsW3, maxBufferedAmount, BACKPRESSURE_LOW])
  rw [h1, h2]

/-! Branch characterizations of flushPending. -/

theorem flushPending_busy (now : Nat) (process : Bytes → Option FrameOut)
    (arrived : Option Bytes) (d : DeviceSession)
    (h : d.processing = true) :
    flushPending now process arrived d =
      ⟨if d.pendingB64.isSome then
          { d with throttleTimer := some d.cfg.minFrameInterval }
        else { d with throttleTimer := none }, none, false⟩ := by
  simp only [flushPending, h]
  cases hp : d.pendingB64 <;> simp [hp]

theorem flushPending_idle (now : Nat) (process : Bytes → Option FrameOut)
    (arrived : Option Bytes) (d : DeviceSession)
    (h : d.processing = false) (hp : d.pendingB64 = none) :
    flushPending now process arrived d =
      ⟨{ d with throttleTimer := none }, none, false⟩ := by
  simp only [flushPending, h, hp]
  simp

theorem flushPending_dup (now : Nat) (process : Bytes → Option FrameOut)
    (arrived : Option Bytes) (d : DeviceSession) (b : Bytes)
    (h : d.processing = false) (hp : d.pendingB64 = some b)
    (hh : d.prevFrameHash = hash32 b) :
    flushPending now process arrived d =
      ⟨{ d with
          throttleTimer := none, pendingB64 := none,
          lastProcessedMs := some now, processing := false },
        none, false⟩ := by
  simp only [flushPending, h, hp]
  simp [hh]

theorem flushPending_err (now : Nat) (process : Bytes → Option FrameOut)
    (arrived : Option Bytes) (d : DeviceSession) (b : Bytes)
    (h : d.processing = false) (hp : d.pendingB64 = some b)
    (hh : d.prevFrameHash ≠ hash32 b) (he : process b = none) :
    flushPending now process arrived d =
      ⟨{ d with
          throttleTimer := if arrived.isSome then some 0 else none,
          pendingB64 := arrived, prevFrameHash := hash32 b,
          lastProcessedMs := some now, processing := false },
        none, true⟩ := by
  simp only [flushPending, h, hp, he]
  cases arrived <;> simp [hh]

theorem flushPending_sent (now : Nat) (process : Bytes → Option FrameOut)
    (arrived : Option Bytes) (d : DeviceSession) (b : Bytes) (out : FrameOut)
    (h : d.processing = false) (hp : d.pendingB64 = some b)
    (hh : d.prevFrameHash ≠ hash32 b) (ho : process b = some out)
    (hr : 0 < out.rects.length) :
    flushPending now process arrived d =
      ⟨{ d with
          throttleTimer := if arrived.isSome then some 0 else none,
          pendingB64 := arrived, prevFrameHash := hash32 b,
          frameId := (d.frameId + 1) % 2 ^ 32,
          lastProcessedMs := some now, processing := false },
        some ((d.frameId + 1) % 2 ^ 32, out), true⟩ := by
  simp only [flushPending, h, hp, ho]
  cases arrived <;> simp [hh, hr]

theorem flushPending_nochange (now : Nat) (process : Bytes → Option FrameOut)
    (arrived : Option Bytes) (d : DeviceSession) (b : Bytes) (out : FrameOut)
    (h : d.processing = false) (hp : d.pendingB64 = some b)
    (hh : d.prevFrameHash ≠ hash32 b) (ho : process b = some out)
    (hr : out.rects.length = 0) :
    flushPending now process arrived d =
      ⟨{ d with
          throttleTimer := if arrived.isSome then some 0 else none,
          pendingB64 := arrived, prevFrameHash := hash32 b,
          lastProcessedMs := some now, processing := false },
        none, true⟩ := by
  simp only [flushPending, h, hp, ho]
  cases arrived <;> simp [hh, hr]

/-- Claim C2: duplicate-frame rejection in flushPending.  A pending
frame whose 32-bit hash equals prevFrameHash is dropped before the
decode stage: nothing is handed to the broadcaster, the decode stage is
never reached, lastProcessedMs is still stamped at now, the pending
slot is consumed, and prevFrameHash is unchanged.  Conversely,
prevFrameHash is assigned (to the new hash) exactly when a pending
frame survives the equality check. -/
theorem flushPending_duplicate_rejection :
    (∀ (now : Nat) (process : Bytes → Option FrameOut)
        (arrived : Option Bytes) (d : DeviceSession) (b : Bytes),
      d.processing = false → d.pendingB64 = some b →
      hash32 b = d.prevFrameHash →
      (flushPending now process arrived d).broadcastFrame = none
      ∧ (flushPending now process arrived d).decoded = false
      ∧ (flushPending now process arrived d).dev.lastProcessedMs = some now
      ∧ (flushPending now process arrived d).dev.prevFrameHash
          = d.prevFrameHash
      ∧ (flushPending now process arrived d).dev.pendingB64 = none)
    ∧ (∀ (now : Nat) (process : Bytes → Option FrameOut)
        (arrived : Option Bytes) (d : DeviceSession),
      (flushPending now process arrived d).dev.prevFrameHash
          ≠ d.prevFrameHash →
      d.processing = false
      ∧ ∃ b, d.pendingB64 = some b ∧ hash32 b ≠ d.prevFrameHash
        ∧ (flushPending now process arrived d).dev.prevFrameHash
            = hash32 b) := by
  constructor
  · intro now process arrived d b h hp hh
    rw [flushPending_dup now process arrived d b h hp hh.symm]
    simp
  · intro now process arrived d hne
    cases hproc : d.processing with
    | true =>
      rw [flushPending_busy now process arrived d hproc] at hne
      cases hp : d.pendingB64 <;> simp [hp] at hne
    | false =>
      cases hp : d.pendingB64 with
      | none =>
        rw [flushPending_idle now process arrived d hproc hp] at hne
        simp at hne
      | some b =>
        by_cases hh : d.prevFrameHash = hash32 b
        · rw [flushPending_dup now process arrived d b hproc hp hh] at hne
          simp at hne
        · refine ⟨rfl, b, rfl, Ne.symm hh, ?_⟩
          cases ho : process b with
          | none =>
            rw [flushPending_err now process arrived d b hproc hp hh ho]
          | some out =>
            rcases Nat.eq_zero_or_pos out.rects.length with hr | hr
            · rw [flushPending_nochange now process arrived d b out
                hproc hp hh ho hr]
            · rw [flushPending_sent now process arrived d b out
                hproc hp hh ho hr]

/-- Witness for C2: the duplicate pending frame of devW2 is dropped
before decode and prevFrameHash stays put. -/
theorem flushPending_duplicate_rejection_witness :
    (flushPending 100 (fun _ => none) none devW2).broadcastFrame = none
    ∧ (flushPending 100 (fun _ => none) none devW2).decoded = false
    ∧ (flushPending 100 (fun _ => none) none devW2).dev.lastProcessedMs
        = some 100
    ∧ (flushPending 100 (fun _ => none) none devW2).dev.prevFrameHash
        = devW2.prevFrameHash
    ∧ (flushPending 100 (fun _ => none) none devW2).dev.pendingB64
        = none :=
  flushPending_duplicate_rejection.1 100 (fun _ => none) none devW2 bytesW
    rfl rfl rfl

/-- Claim C4: frameId discipline.  When a surviving frame is processed,
frameId is advanced by one modulo 2 ^ 32 and the frame is broadcast
with that frameId exactly when the processor returns a non-empty
rectangle list; with an empty list frameId is unchanged and nothing is
broadcast.  Globally, any flushPending step that changes frameId or
broadcasts a frame does both at once, with the broadcast frameId equal
to the old frameId + 1 mod 2 ^ 32 (hence successive broadcast frameIds
of a device increase by one mod 2 ^ 32), and at frameId 0xFFFFFFFF the
increment wraps to 0. -/
theorem flushPending_frameId_discipline :
    (∀ (now : Nat) (process : Bytes → Option FrameOut)
        (arrived : Option Bytes) (d : DeviceSession) (b : Bytes)
        (out : FrameOut),
      d.processing = false → d.pendingB64 = some b →
      hash32 b ≠ d.prevFrameHash → process b = some out →
      (0 < out.rects.length →
        (flushPending now process arrived d).dev.frameId
          = (d.frameId + 1) % 2 ^ 32
        ∧ (flushPending now process arrived d).broadcastFrame
          = some ((d.frameId + 1) % 2 ^ 32, out))
      ∧ (out.rects.length = 0 →
        (flushPending now process arrived d).dev.frameId = d.frameId
        ∧ (flushPending now process arrived d).broadcastFrame = none))
    ∧ (∀ (now : Nat) (process : Bytes → Option FrameOut)
        (arrived : Option Bytes) (d : DeviceSession),
      ((flushPending now process arrived d).dev.frameId ≠ d.frameId
        ∨ (flushPending now process arrived d).broadcastFrame ≠ none) →
      ∃ fid out,
        (flushPending now process arrived d).broadcastFrame
            = some (fid, out)
        ∧ fid = (d.frameId + 1) % 2 ^ 32
        ∧ (flushPending now process arrived d).dev.frameId = fid
        ∧ 0 < out.rects.length)
    ∧ (∀ (now : Nat) (process : Bytes → Option FrameOut)
        (arrived : Option Bytes) (d : DeviceSession) (b : Bytes)
        (out : FrameOut),
      d.processing = false → d.pendingB64 = some b →
      hash32 b ≠ d.prevFrameHash → process b = some out →
      0 < out.rects.length → d.frameId = 2 ^ 32 - 1 →
      (flushPending now process arrived d).dev.frameId = 0) := by
  refine ⟨?_, ?_, ?_⟩
  · intro now process arrived d b out h hp hh ho
    constructor
    · intro hr
      rw [flushPending_sent now process arrived d b out h hp
        (fun hc => hh hc.symm) ho hr]
      exact ⟨rfl, rfl⟩
    · intro hr
      rw [flushPending_nochange now process arrived d b out h hp
        (fun hc => hh hc.symm) ho hr]
      exact ⟨rfl, rfl⟩
  · intro now process arrived d hne
    cases hproc : d.processing with
    | true =>
      rw [flushPending_busy now process arrived d hproc] at hne
      cases hp : d.pendingB64 <;> simp [hp] at hne
    | false =>
      cases hp : d.pendingB64 with
      | none =>
        rw [flushPending_idle now process arrived d hproc hp] at hne
        simp at hne
      | some b =>
        by_cases hh : d.prevFrameHash = hash32 b
        · rw [flushPending_dup now process arrived d b hproc hp hh] at hne
          simp at hne
        · cases ho : process b with
          | none =>
            rw [flushPending_err now process arrived d b hproc hp hh ho]
              at hne
            simp at hne
          | some out =>
            rcases Nat.eq_zero_or_pos out.rects.length with hr | hr
            · rw [flushPending_nochange now process arrived d b out
                hproc hp hh ho hr] at hne
              simp at hne
            · rw [flushPending_sent now process arrived d b out
                hproc hp hh ho hr]
              exact ⟨(d.frameId + 1) % 2 ^ 32, out, rfl, rfl, rfl, hr⟩
  · intro now process arrived d b out h hp hh ho hr hw
    rw [flushPending_sent now process arrived d b out h hp
      (fun hc => hh hc.symm) ho hr]
    show (d.frameId + 1) % 2 ^ 32 = 0
    rw [hw]
    norm_num

/-- Witness for C4: processing devW4's pending frame broadcasts it and
wraps frameId from 0xFFFFFFFF to 0. -/
theorem flushPending_frameId_discipline_witness :
    (flushPending 100 (fun _ => some outW) none devW4).dev.frameId = 0 :=
  flushPending_frameId_discipline.2.2 100 (fun _ => some outW) none devW4
    bytesW outW rfl rfl (by decide) rfl (by decide) (by decide)

theorem deviceConfigsEqual_iff (a b : DeviceConfig) :
    deviceConfigsEqual a b = true ↔ a = b := by
  cases a
  cases b
  simp only [deviceConfigsEqual, Bool.and_eq_true, beq_iff_eq,
    DeviceConfig.mk.injEq]
  tauto

theorem setDev_cons_ne (p : Nat × DeviceSession) (t : Registry) (id : Nat)
    (s : DeviceSession) (hp : (p.1 == id) = false) :
    setDev (p :: t) id s = p :: setDev t id s := by
  unfold setDev
  rw [List.find?_cons_of_neg _ (by simp [hp])]
  by_cases ht : (List.find? (fun q => q.1 == id) t).isSome
  · rw [if_pos ht, if_pos ht]
    simp only [List.map_cons]
    rw [if_neg (by simp [hp])]
  · rw [if_neg ht, if_neg ht]
    simp

theorem lookupDev_setDev_self (reg : Registry) (id : Nat)
    (s : DeviceSession) :
    lookupDev (setDev reg id s) id = some s := by
  induction reg with
  | nil => simp [setDev, lookupDev]
  | cons p t ih =>
    by_cases hp : (p.1 == id) = true
    · unfold setDev
      rw [List.find?_cons_of_pos _ (by simp [hp])]
      simp only [Option.isSome_some, if_true]
      unfold lookupDev
      rw [List.map_cons, if_pos hp,
        List.find?_cons_of_pos _ (by simp)]
      rfl
    · rw [setDev_cons_ne p t id s (by simpa using hp)]
      unfold lookupDev
      rw [List.find?_cons_of_neg _ (by simp [hp])]
      exact ih

/-- Claim C5: ensureDevice idempotence and rebuild.  Every config is
deviceConfigsEqual to itself; when a session exists under the id with
an equal config it is returned without any destroy (same browser
target, same config) and with a full-frame request latched; when the
existing config differs, exactly one destroy happens and the new
session carries the new config (and the fresh browser target); and two
ensureDevice calls with the same config never rebuild at the second
call, whatever the starting registry. -/
theorem ensureDevice_idempotence_and_rebuild :
    (∀ a : DeviceConfig, deviceConfigsEqual a a = true)
    ∧ (∀ (now fresh id : Nat) (a : DeviceConfig) (reg : Registry)
        (s : DeviceSession),
      lookupDev reg id = some s → deviceConfigsEqual s.cfg a = true →
      (ensureDevice now fresh id a reg).destroys = 0
      ∧ (ensureDevice now fresh id a reg).session.id = s.id
      ∧ (ensureDevice now fresh id a reg).session.cfg = s.cfg
      ∧ (ensureDevice now fresh id a reg).session.fullFrameLatched = true)
    ∧ (∀ (now fresh id : Nat) (b : DeviceConfig) (reg : Registry)
        (s : DeviceSession),
      lookupDev reg id = some s → deviceConfigsEqual s.cfg b = false →
      (ensureDevice now fresh id b reg).destroys = 1
      ∧ (ensureDevice now fresh id b reg).session.cfg = b
      ∧ (ensureDevice now fresh id b reg).session.id = fresh
      ∧ (ensureDevice now fresh id b reg).session.fullFrameLatched = true)
    ∧ (∀ (now1 now2 f1 f2 id : Nat) (a : DeviceConfig) (reg : Registry),
      (ensureDevice now2 f2 id a
          (ensureDevice now1 f1 id a reg).reg).destroys = 0
      ∧ (ensureDevice now2 f2 id a
          (ensureDevice now1 f1 id a reg).reg).session.id
        = (ensureDevice now1 f1 id a reg).session.id) := by
  have hrefl : ∀ a : DeviceConfig, deviceConfigsEqual a a = true :=
    fun a => (deviceConfigsEqual_iff a a).2 rfl
  refine ⟨hrefl, ?_, ?_, ?_⟩
  · intro now fresh id a reg s hl he
    simp [ensureDevice, hl, he]
  · intro now fresh id b reg s hl he
    simp [ensureDevice, hl, he, mkSession]
  · intro now1 now2 f1 f2 id a reg
    cases hl : lookupDev reg id with
    | none =>
      have hreg : ensureDevice now1 f1 id a reg
          = ⟨setDev reg id (mkSession f1 id a now1),
              mkSession f1 id a now1, 0⟩ := by
        simp [ensureDevice, hl]
      rw [hreg]
      have h2 := lookupDev_setDev_self reg id (mkSession f1 id a now1)
      have he2 : deviceConfigsEqual (mkSession f1 id a now1).cfg a = true :=
        hrefl a
      simp [ensureDevice, h2, he2]
    | some s =>
      by_cases he : deviceConfigsEqual s.cfg a = true
      · have hreg : ensureDevice now1 f1 id a reg
            = ⟨setDev reg id
                { s with lastActive := now1, fullFrameLatched := true },
                { s with lastActive := now1, fullFrameLatched := true },
                0⟩ := by
          simp [ensureDevice, hl, he]
        rw [hreg]
        have h2 := lookupDev_setDev_self reg id
          { s with lastActive := now1, fullFrameLatched := true }
        simp [ensureDevice, h2, he]
      · have hreg : ensureDevice now1 f1 id a reg
            = ⟨setDev (eraseDev reg id) id (mkSession f1 id a now1),
                mkSession f1 id a now1, 1⟩ := by
          simp [ensureDevice, hl, he]
        rw [hreg]
        have h2 := lookupDev_setDev_self (eraseDev reg id) id
          (mkSession f1 id a now1)
        have he2 : deviceConfigsEqual (mkSession f1 id a now1).cfg a = true :=
          hrefl a
        simp [ensureDevice, h2, he2]

/-- Witness for C5: a registry holding devW under id 1.  Re-ensuring
with the same config does not rebuild and keeps the browser target;
ensuring with a changed width destroys once and snapshots the new
config. -/
theorem ensureDevice_idempotence_and_rebuild_witness :
    ((ensureDevice 2000 9 1 cfgW [(1, devW)]).destroys = 0
      ∧ (ensureDevice 2000 9 1 cfgW [(1, devW)]).session.id = devW.id)
    ∧ ((ensureDevice 2000 8 1 cfgW2 [(1, devW)]).destroys = 1
      ∧ (ensureDevice 2000 8 1 cfgW2 [(1, devW)]).session.cfg = cfgW2) := by
  have h1 := ensureDevice_idempotence_and_rebuild.2.1 2000 9 1 cfgW
    [(1, devW)] devW rfl (by decide)
  have h2 := ensureDevice_idempotence_and_rebuild.2.2.1 2000 8 1 cfgW2
    [(1, devW)] devW rfl (by decide)
  exact ⟨⟨h1.1, h1.2.1⟩, ⟨h2.1, h2.2.1⟩⟩

/-- Claim C6: no viewers, no work.  With zero registered clients
sendFrameChunked enqueues no OutFrame, the drain clears the queue and
sends no packet, the screencast handler returns right after the ACK and
the fallback reschedule — lastActive, the pending slot and the throttle
timer are untouched but the frame is still acknowledged — and the
fallback capture takes no screenshot (it only re-arms the 5 s
recheck). -/
theorem no_viewers_no_work :
    (∀ (data : FrameOut) (fid : Nat) (bp : FrameOut → Nat → List Packet)
        (queue : List OutFrame),
      sendFrameChunked 0 data fid bp queue = queue)
    ∧ (∀ (q : List OutFrame) (env : CycleEnv),
        drainStep 0 q env = ([], [], false))
    ∧ (∀ (now : Nat) (data : Bytes) (d : DeviceSession),
        onScreencastFrame 0 now data d
          = ⟨{ d with fallbackTimer := some FALLBACK_DELAY_MS }, true⟩)
    ∧ (∀ (shot : ShotResult) (d : DeviceSession),
        fallbackCapture 0 shot d
          = ({ d with fallbackTimer := some FALLBACK_NO_CLIENT_RECHECK_MS },
              false)) := by
  refine ⟨?_, ?_, ?_, ?_⟩
  · intro data fid bp queue
    simp [sendFrameChunked]
  · intro q env
    simp [drainStep]
  · intro now data d
    rfl
  · intro shot d
    rfl

/-- Claim C7: throttle-timer arming.  With clients connected and no
timer armed, a screencast frame arms a throttle timer with delay
max(0, minFrameInterval - (now - lastProcessedMs)) and stores the frame
in the pending slot; in particular the delay is 0 once the elapsed time
reaches minFrameInterval.  A frame arriving while a timer is armed only
overwrites the pending slot — the armed timer is unchanged. -/
theorem screencast_throttle_arming :
    (∀ (c now : Nat) (data : Bytes) (d : DeviceSession) (t : Nat),
      0 < c → d.throttleTimer = none → d.lastProcessedMs = some t →
      (onScreencastFrame c now data d).dev.throttleTimer
        = some (Int.toNat (max 0 ((d.cfg.minFrameInterval : Int)
            - ((now : Int) - (t : Int)))))
      ∧ (onScreencastFrame c now data d).dev.pendingB64 = some data)
    ∧ (∀ (c now : Nat) (data : Bytes) (d : DeviceSession) (t : Nat),
      0 < c → d.throttleTimer = none → d.lastProcessedMs = some t →
      t ≤ now → d.cfg.minFrameInterval ≤ now - t →
      (onScreencastFrame c now data d).dev.throttleTimer = some 0)
    ∧ (∀ (c now : Nat) (data : Bytes) (d : DeviceSession),
      0 < c → d.throttleTimer ≠ none →
      (onScreencastFrame c now data d).dev.throttleTimer = d.throttleTimer
      ∧ (onScreencastFrame c now data d).dev.pendingB64 = some data) := by
  have harm : ∀ (c now : Nat) (data : Bytes) (d : DeviceSession) (t : Nat),
      0 < c → d.throttleTimer = none → d.lastProcessedMs = some t →
      (onScreencastFrame c now data d).dev.throttleTimer
        = some (Int.toNat (max 0 ((d.cfg.minFrameInterval : Int)
            - ((now : Int) - (t : Int)))))
      ∧ (onScreencastFrame c now data d).dev.pendingB64 = some data := by
    intro c now data d t hc ht hl
    simp [onScreencastFrame, Nat.pos_iff_ne_zero.mp hc, ht, hl]
  refine ⟨harm, ?_, ?_⟩
  · intro c now data d t hc ht hl h1 h2
    rw [(harm c now data d t hc ht hl).1]
    congr 1
    rw [Int.toNat_eq_zero]
    refine max_le le_rfl ?_
    omega
  · intro c now data d hc ht
    simp [onScreencastFrame, Nat.pos_iff_ne_zero.mp hc, ht]

/-- Witness for C7: a frame that arrives 200 ms after the last
processing with minFrameInterval 80 is scheduled with delay 0. -/
theorem screencast_throttle_arming_witness :
    (onScreencastFrame 1 300 [1] { devW with lastProcessedMs := some 100
      }).dev.throttleTimer = some 0 :=
  screencast_throttle_arming.2.1 1 300 [1]
    { devW with lastProcessedMs := some 100 } 100 (by decide) rfl rfl
    (by decide) (by decide)

/-- Counterexample for C8 as stated: with a client connected, after the
Page.captureScreenshot request errors (the error being swallowed), the
fallback timer IS re-armed — at FALLBACK_REPEAT_MS — so "the timer is
not re-armed on unrecoverable target errors" fails on the code, which
has no error branch that skips the re-arm. -/
theorem fallbackCapture_err_rearms :
    (fallbackCapture 1 ShotResult.err devW).1.fallbackTimer
      = some FALLBACK_REPEAT_MS
    ∧ (fallbackCapture 1 ShotResult.err devW).1.fallbackTimer
      ≠ (none : Option Nat) := by
  refine ⟨rfl, ?_⟩
  rw [show (fallbackCapture 1 ShotResult.err devW).1.fallbackTimer
    = some FALLBACK_REPEAT_MS from rfl]
  simp

/-- Claim C8 (amended): fallback-capture error policy.  An error from
the Page.captureScreenshot request is swallowed: the session continues
with every field other than the fallback timer unchanged (no pending
frame written, no full-frame latched, no state poisoned), and the
fallback timer is re-armed at FALLBACK_REPEAT_MS whenever clients
remain connected — also after an error. -/
theorem fallbackCapture_error_policy :
    ∀ (c : Nat) (d : DeviceSession), 0 < c →
      (fallbackCapture c ShotResult.err d).1
        = { d with fallbackTimer := some FALLBACK_REPEAT_MS }
      ∧ (fallbackCapture c ShotResult.err d).2 = true := by
  intro c d hc
  simp [fallbackCapture, Nat.pos_iff_ne_zero.mp hc, hc]

/-- Witness for C8 (amended) at a concrete session. -/
theorem fallbackCapture_error_policy_witness :
    (fallbackCapture 1 ShotResult.err devW).1
      = { devW with fallbackTimer := some FALLBACK_REPEAT_MS }
    ∧ (fallbackCapture 1 ShotResult.err devW).2 = true :=
  fallbackCapture_error_policy 1 devW (by decide)

theorem lookupClients_map_replace (id ws : Nat) :
    ∀ cs : BClients, (List.find? (fun p => p.1 == id) cs).isSome = true →
      lookupClients (cs.map (fun p => if p.1 == id then (id, [ws]) else p))
        id = some [ws] := by
  intro cs
  induction cs with
  | nil => simp
  | cons p t ih =>
    intro hs
    cases hp : (p.1 == id) with
    | true =>
      unfold lookupClients
      rw [List.map_cons, if_pos hp, List.find?_cons_of_pos _ (by simp)]
      rfl
    | false =>
      rw [List.find?_cons_of_neg _ (by simp [hp])] at hs
      unfold lookupClients
      rw [List.map_cons, if_neg (by simp [hp]),
        List.find?_cons_of_neg _ (by simp [hp])]
      exact ih hs

/-- Claim C9: addClient replacement policy.  When clients are already
registered for the deviceId, addClient closes exactly those sockets and
removes them, registering the new socket alone, so immediately
afterwards the device's client set is the singleton of the new socket
and its count is exactly 1. -/
theorem addClient_replacement_policy :
    ∀ (id ws : Nat) (cs : BClients) (old : List Nat),
      lookupClients cs id = some old → 0 < old.length →
      (addClient id ws cs).closedSocks = old
      ∧ lookupClients (addClient id ws cs).clients id = some [ws]
      ∧ getClientCount (addClient id ws cs).clients id = 1 := by
  intro id ws cs old hl hn
  have hsome : (List.find? (fun p => p.1 == id) cs).isSome = true := by
    unfold lookupClients at hl
    cases hf : List.find? (fun p => p.1 == id) cs
    · rw [hf] at hl
      simp at hl
    · simp
  have hlk : lookupClients
      (cs.map (fun p => if p.1 == id then (id, [ws]) else p)) id
        = some [ws] :=
    lookupClients_map_replace id ws cs hsome
  have hlk2 : lookupClients
      (cs.map (fun p => if p.1 = id then (id, [ws]) else p)) id
        = some [ws] := by
    simpa using hlk
  refine ⟨?_, ?_, ?_⟩
  · simp [addClient, hl, hn]
  · simp [addClient, hl]
    exact hlk2
  · simp [addClient, hl, getClientCount, hlk2]

/-- Witness for C9: both sockets 5 and 6 are closed and replaced by
socket 9, count 1. -/
theorem addClient_replacement_policy_witness :
    (addClient 1 9 [(1, [5, 6])]).closedSocks = [5, 6]
    ∧ lookupClients (addClient 1 9 [(1, [5, 6])]).clients 1 = some [9]
    ∧ getClientCount (addClient 1 9 [(1, [5, 6])]).clients 1 = 1 :=
  addClient_replacement_policy 1 9 [(1, [5, 6])] [5, 6] rfl (by decide)

/-- Claim C10: a screencast frame received with zero clients changes
nothing but the fallback timer (and is acknowledged): lastActive, the
pending slot and the throttle timer keep their values, the staleness
test is unchanged, and cleanupIdle retains no session whose lastActive
is older than the ttl — so such a session still becomes eligible for
idle eviction. -/
theorem no_viewer_frames_idle_eviction :
    (∀ (now : Nat) (data : Bytes) (d : DeviceSession),
      (onScreencastFrame 0 now data d).dev
          = { d with fallbackTimer := some FALLBACK_DELAY_MS }
      ∧ (onScreencastFrame 0 now data d).acked = true
      ∧ (onScreencastFrame 0 now data d).dev.lastActive = d.lastActive
      ∧ (onScreencastFrame 0 now data d).dev.pendingB64 = d.pendingB64
      ∧ (onScreencastFrame 0 now data d).dev.throttleTimer
          = d.throttleTimer
      ∧ ∀ (tnow ttl : Nat),
          isStale tnow ttl (onScreencastFrame 0 now data d).dev
            = isStale tnow ttl d)
    ∧ (∀ (tnow ttl : Nat) (reg : Registry) (p : Nat × DeviceSession),
        p ∈ cleanupIdle tnow ttl reg → isStale tnow ttl p.2 = false)
    ∧ (∀ (tnow ttl : Nat) (reg : Registry) (idd : Nat)
        (d : DeviceSession),
        isStale tnow ttl d = true →
        ¬ (idd, d) ∈ cleanupIdle tnow ttl reg) := by
  refine ⟨?_, ?_, ?_⟩
  · intro now data d
    exact ⟨rfl, rfl, rfl, rfl, rfl, fun tnow ttl => rfl⟩
  · intro tnow ttl reg p hp
    have h := List.of_mem_filter hp
    simpa using h
  · intro tnow ttl reg idd d hstale hmem
    have h := List.of_mem_filter hmem
    simp [hstale] at h

/-- Witness for C10: after a no-viewer screencast frame, devW10 is
still stale at time 400000 with a 300000 ms ttl and is evicted. -/
theorem no_viewer_frames_idle_eviction_witness :
    isStale 400000 300000 (onScreencastFrame 0 50 [1] devW10).dev = true
    ∧ ¬ (1, (onScreencastFrame 0 50 [1] devW10).dev)
        ∈ cleanupIdle 400000 300000
            [(1, (onScreencastFrame 0 50 [1] devW10).dev)] := by
  refine ⟨rfl, ?_⟩
  exact no_viewer_frames_idle_eviction.2.2 400000 300000
    [(1, (onScreencastFrame 0 50 [1] devW10).dev)] 1
    (onScreencastFrame 0 50 [1] devW10).dev rfl

end RWVS
